import Mathlib

/-!
A shallow embedding of the core logic of `apps/add-current/server.js`
(the media-actions HTTP service of the spainify repository), together
with theorems settling the frozen claims about its specification.

Conventions of the embedding:
* JavaScript strings are Lean `String`s; truthiness of a string is
  modelled as being nonempty (`s ≠ ""`).
* JavaScript numbers that the code treats as integers are `Nat`/`Int`;
  `NaN` produced by `Number(...)` on non-numeric input is `Option.none`.
* `undefined`/`null` fields are `Option`.
* Wall-clock timestamps (`Date.now()`) are passed explicitly as `Nat`
  millisecond values.
* Network I/O is modelled by explicit oracle functions (page fetchers,
  join/volume gateways, response sequences) passed as parameters;
  thrown JS exceptions become `Except`/tagged results.
-/

namespace Spainify

/-! ### Strings: startsWith / includes / character classes

`String.prototype.startsWith` and `String.prototype.includes` are
modelled on the underlying character lists. -/

/-- `listStartsWith s pat` is true when `pat` is a prefix of `s`. -/
def listStartsWith : List Char → List Char → Bool
  | _, [] => true
  | [], _ :: _ => false
  | a :: as, b :: bs => a == b && listStartsWith as bs

/-- `listContainsSub s pat`: `pat` occurs as a contiguous substring of `s`. -/
def listContainsSub (s pat : List Char) : Bool :=
  match s with
  | [] => listStartsWith [] pat
  | _ :: rest => listStartsWith s pat || listContainsSub rest pat

/-- JS `s.startsWith(pat)`. -/
def jsStartsWith (s pat : String) : Bool :=
  listStartsWith s.data pat.data

/-- JS `s.includes(pat)`. -/
def jsIncludes (s pat : String) : Bool :=
  listContainsSub s.data pat.data

/-- The character class `[A-Za-z0-9]` of the track-id regexes. -/
def isAlnumChar (c : Char) : Bool :=
  (65 ≤ c.toNat && c.toNat ≤ 90) ||
  (97 ≤ c.toNat && c.toNat ≤ 122) ||
  (48 ≤ c.toNat && c.toNat ≤ 57)

/-- One regex match attempt anchored at the start of `s`: the literal
pattern `pat` followed by a nonempty maximal run of `[A-Za-z0-9]`
(the capture group). -/
def matchCapture (pat s : List Char) : Option (List Char) :=
  if listStartsWith s pat then
    let cap := (s.drop pat.length).takeWhile isAlnumChar
    if cap.isEmpty then none else some cap
  else none

/-- JS `String.prototype.match` for the patterns `/pat([A-Za-z0-9]+)/`:
try each start position left to right, return the first capture. -/
def searchCapture (pat : List Char) : List Char → Option (List Char)
  | [] => matchCapture pat []
  | c :: rest =>
    match matchCapture pat (c :: rest) with
    | some cap => some cap
    | none => searchCapture pat rest

/-! ### server.js lines 63-70: `extractSpotifyTrackId` -/

/-- `extractSpotifyTrackId(uri)`: `null` on a falsy uri, else the first
capture of `/spotify%3atrack%3a([A-Za-z0-9]+)/`, else the first capture
of `/spotify:track:([A-Za-z0-9]+)/`, else `null`. -/
def extractSpotifyTrackId (uri : String) : Option String :=
  if uri = "" then none
  else
    match searchCapture "spotify%3atrack%3a".data uri.data with
    | some cap => some (String.mk cap)
    | none => (searchCapture "spotify:track:".data uri.data).map String.mk

/-! ### server.js lines 88-104: URI classification -/

/-- `isTvLikeUri` (lines 88-91). -/
def isTvLikeUri (uri : String) : Bool :=
  jsStartsWith uri "x-sonos-htastream:" || jsIncludes uri ":spdif" ||
    jsIncludes uri ":hdmi_arc"

/-- `isLineInUri` (lines 93-96). -/
def isLineInUri (uri : String) : Bool :=
  jsStartsWith uri "x-sonos-auxin:" || jsIncludes uri "x-rincon-stream:"

/-- A zone-member current track as reported by the Sonos HTTP gateway:
title, artist, playback-source URI, optional numeric duration. -/
structure TrackInfo where
  uri : String
  title : String
  artist : String
  duration : Option Int
deriving DecidableEq

/-- The `|| {}` default track used when a coordinator or its state is
absent. -/
def emptyTrack : TrackInfo := ⟨"", "", "", none⟩

/-- `isMusicLikeTrack` (lines 98-104): no URI → false; TV or line-in →
false; positive numeric duration plus truthy title → true; else test
`/x-sonos-spotify:|spotify:track:|x-sonos-http:|^https?:\/\//`. -/
def isMusicLikeTrack (track : TrackInfo) : Bool :=
  let uri := track.uri
  if uri = "" then false
  else if isTvLikeUri uri || isLineInUri uri then false
  else if (match track.duration with
           | some d => decide (0 < d)
           | none => false) && track.title ≠ "" then true
  else
    jsIncludes uri "x-sonos-spotify:" || jsIncludes uri "spotify:track:" ||
      jsIncludes uri "x-sonos-http:" || jsStartsWith uri "http://" ||
      jsStartsWith uri "https://"

/-! ### Zones data model (shapes consumed from the `/zones` payload) -/

/-- A member's `state` object: `playbackState` plus optional
`currentTrack`. -/
structure MemberState where
  playbackState : String
  currentTrack : Option TrackInfo
deriving DecidableEq

/-- A zone member: room name, coordinator flag, optional state. -/
structure Member where
  roomName : String
  coordinator : Bool
  state : Option MemberState
deriving DecidableEq

/-- A zone: a list of members. -/
structure Zone where
  members : List Member
deriving DecidableEq

/-- `isActive` (lines 112-114): some member has
`state?.playbackState === "PLAYING"`. -/
def isActive (zone : Zone) : Bool :=
  zone.members.any fun m =>
    match m.state with
    | some st => st.playbackState == "PLAYING"
    | none => false

/-- `coordinatorOf` (lines 116-118): the flagged coordinator, else the
first member, else `undefined`. -/
def coordinatorOf (zone : Zone) : Option Member :=
  match zone.members.find? (fun m => m.coordinator) with
  | some m => some m
  | none => zone.members.head?

/-- `coordinatorOf(zone)?.state?.currentTrack || {}`. -/
def currentTrackOf (zone : Zone) : TrackInfo :=
  match coordinatorOf zone with
  | some m =>
    match m.state with
    | some st => st.currentTrack.getD emptyTrack
    | none => emptyTrack
  | none => emptyTrack

/-- `zoneHasSpotifyTrack` (lines 120-123). -/
def zoneHasSpotifyTrack (zone : Zone) : Bool :=
  (extractSpotifyTrackId (currentTrackOf zone).uri).isSome

/-- `zoneHasMusic` (lines 125-128). -/
def zoneHasMusic (zone : Zone) : Bool :=
  isMusicLikeTrack (currentTrackOf zone)

/-! ### server.js lines 130-143: deterministic zone ordering

`zoneSortKey` builds the string
`coordinatorName.toLowerCase() ++ "::" ++ sortedMemberNames.join("|")`.
We model the key as the list of its character code points (`List Nat`),
which keeps the lexicographic-comparison reasoning in `Nat`.
`localeCompare` and the default JS string sort are both modelled as
lexicographic comparison of code points, and `[...].sort(...)` as a
stable ascending sort (stability is guaranteed by ES2019). -/

/-- Lexicographic comparison of code-point lists (the model of JS
string comparison used by `zoneSortKey` ordering). -/
def lexLe : List Nat → List Nat → Bool
  | [], _ => true
  | _ :: _, [] => false
  | a :: as, b :: bs =>
    if a < b then true
    else if b < a then false
    else lexLe as bs

/-- Lowercased code points of a JS string (model of `toLowerCase`). -/
def nameKey (s : String) : List Nat :=
  s.data.map fun c => c.toLower.toNat

/-- Ordering on names used by the member-name sort inside
`zoneSortKey`. -/
def nameLe (a b : List Nat) : Prop := lexLe a b = true

instance : DecidableRel nameLe := fun a b =>
  inferInstanceAs (Decidable (lexLe a b = true))

/-- `zoneSortKey` (lines 130-139): lowercase coordinator name, `"::"`,
then the lowercased, truthiness-filtered, sorted member names joined
with `"|"`. -/
def zoneSortKey (zone : Zone) : List Nat :=
  let coordinatorName :=
    nameKey (match coordinatorOf zone with
             | some m => m.roomName
             | none => "")
  let memberNames :=
    (zone.members.map fun m => nameKey m.roomName).filter
      fun n => !n.isEmpty
  let sortedNames := List.insertionSort nameLe memberNames
  coordinatorName ++ [58, 58] ++ List.intercalate [124] sortedNames

/-- Zone ordering by sort key. -/
def zoneLe (a b : Zone) : Prop := lexLe (zoneSortKey a) (zoneSortKey b) = true

instance : DecidableRel zoneLe := fun a b =>
  inferInstanceAs (Decidable (lexLe (zoneSortKey a) (zoneSortKey b) = true))

/-- `sortZonesDeterministically` (lines 141-143): stable ascending sort
of a copy of `zones` by `zoneSortKey`. -/
def sortZonesDeterministically (zones : List Zone) : List Zone :=
  List.insertionSort zoneLe zones

/-! ### server.js lines 157-180: `pickActiveZone` -/

/-- The local `filterByMode` arrow function of `pickActiveZone`
(line 161): `mode === "any"` skips the music filter. -/
def filterByMode (mode : String) (zs : List Zone) : List Zone :=
  if mode = "any" then zs else zs.filter zoneHasMusic

/-- `pickActiveZone(zones, preferredRoom, mode)`: filter to active
zones, sort deterministically, then return the first zone of the first
non-empty tier — preferred room (mode-filtered), Spotify-track zones
(mode-filtered), music-like zones (mode-filtered), else any active
zone.  The sequential `if (xs.length) return xs[0]` early returns are
modelled with `Option.orElse`. -/
def pickActiveZone (zones : List Zone) (preferredRoom : String)
    (mode : String) : Option Zone :=
  let active := sortZonesDeterministically (zones.filter isActive)
  if active.isEmpty then none
  else
    let preferredPick : Option Zone :=
      if preferredRoom ≠ "" then
        (filterByMode mode (active.filter fun z =>
          z.members.any fun m => m.roomName == preferredRoom)).head?
      else none
    preferredPick.orElse fun _ =>
      (((filterByMode mode active).filter zoneHasSpotifyTrack).head?).orElse
        fun _ =>
          ((filterByMode mode active).head?).orElse fun _ => active.head?

/-! ### server.js lines 274-293: `fetchJsonWithRetry` -/

/-- Outcome of one `fetch` attempt: parsed JSON of type `α`, a non-ok
HTTP response (status and body text), or a thrown network/timeout
error. -/
inductive FetchOutcome (α : Type) where
  | ok (val : α)
  | httpErr (status : Nat) (body : String)
  | netErr (msg : String)
deriving DecidableEq

/-- Whether the attempt produced an ok response. -/
def FetchOutcome.isOk {α : Type} : FetchOutcome α → Bool
  | .ok _ => true
  | _ => false

/-- The message of the error thrown for a failed attempt: line 284
throws the status-and-body string, a network error rethrows its own
message. -/
def FetchOutcome.errMsg {α : Type} : FetchOutcome α → String
  | .ok _ => ""
  | .httpErr status body => toString status ++ " " ++ body
  | .netErr msg => msg

/-- The attempt loop of `fetchJsonWithRetry` (lines 276-292):
`responses n` is the outcome of attempt `n`; the countdown argument is
the number of retries still allowed.  Every failed attempt — thrown
network error or non-ok HTTP status alike — is retried until the
allowance is exhausted, then its error is surfaced.  The result pairs
the outcome with the number of fetch attempts performed.  (The
exponential backoff sleep affects timing only and is not modelled.) -/
def fetchAttempts {α : Type} (responses : Nat → FetchOutcome α)
    (attempt : Nat) : Nat → Except String α × Nat
  | 0 =>
    match responses attempt with
    | .ok v => (.ok v, attempt + 1)
    | e => (.error e.errMsg, attempt + 1)
  | n + 1 =>
    match responses attempt with
    | .ok v => (.ok v, attempt + 1)
    | _ => fetchAttempts responses (attempt + 1) n

/-- `fetchJsonWithRetry(url, opts, retries, timeoutMs)` as a function of
the attempt outcomes. -/
def fetchJsonWithRetry {α : Type} (responses : Nat → FetchOutcome α)
    (retries : Nat) : Except String α × Nat :=
  fetchAttempts responses 0 retries

/-- A response sequence whose first attempt is a 404 rejection and
whose later attempts succeed. -/
def notFoundThenOk : Nat → FetchOutcome Nat := fun n =>
  if n = 0 then .httpErr 404 "not found" else .ok 7

/-- A response sequence that always returns HTTP 404. -/
def alwaysNotFound : Nat → FetchOutcome Nat := fun _ => .httpErr 404 "nf"

/-! ### server.js lines 559-587: the Sonos branch of `/add-current-smart` -/

/-- Outcome of resolving the picked zone's current track in the Sonos
fallback branch: either an early `added:false` response with its
reason, or a resolved track identity plus title/artist metadata. -/
inductive SonosResolution where
  | notAddable (reason : String)
  | resolved (trackId : String) (title : String) (artist : String)
deriving DecidableEq

/-- Lines 559-587: the music-mode guard, then native-id extraction from
the coordinator's current URI.  When no native id is derivable the
branch returns an `added:false` reason; no identity is synthesised. -/
def resolveSonosTrack (zone : Zone) (mode : String) : SonosResolution :=
  let track := currentTrackOf zone
  if (mode != "any") && !isMusicLikeTrack track then
    .notAddable "Active zone is TV/line-in; ignoring in music mode"
  else
    match extractSpotifyTrackId track.uri with
    | none => .notAddable "Current item is not a Spotify track (or no URI)"
    | some id => .resolved id track.title track.artist

/-! ### server.js lines 36-59: the recent-adds map

`recentAdds` is a JS `Map` from track id to insertion timestamp; it is
modelled as an insertion-ordered association list.  `Map.set` updates
an existing key in place (preserving its position) or appends. -/

/-- `RECENT_TTL_MS` (line 37): ten minutes. -/
def RECENT_TTL_MS : Nat := 10 * 60 * 1000

/-- `Map.get`. -/
def mapGet (m : List (String × Nat)) (k : String) : Option Nat :=
  (m.find? fun p => p.1 == k).map fun p => p.2

/-- `Map.set`. -/
def mapSet (m : List (String × Nat)) (k : String) (v : Nat) :
    List (String × Nat) :=
  if m.any fun p => p.1 == k then
    m.map fun p => if p.1 == k then (k, v) else p
  else m ++ [(k, v)]

/-- `Map.delete`. -/
def mapDelete (m : List (String × Nat)) (k : String) :
    List (String × Nat) :=
  m.filter fun p => p.1 != k

/-- `pruneRecentAdds(now)` (lines 39-44): drop entries older than the
TTL cutoff. -/
def pruneRecentAdds (m : List (String × Nat)) (now : Nat) :
    List (String × Nat) :=
  m.filter fun p => !decide (p.2 < now - RECENT_TTL_MS)

/-- `seenRecently(trackId)` (lines 46-54).  A falsy stored timestamp
(0/absent) reads as unseen; an expired entry is deleted and reads as
unseen.  Returns the answer and the possibly-mutated map. -/
def seenRecently (m : List (String × Nat)) (trackId : String) (now : Nat) :
    Bool × List (String × Nat) :=
  match mapGet m trackId with
  | none => (false, m)
  | some t =>
    if t = 0 then (false, m)
    else if RECENT_TTL_MS ≤ now - t then (false, mapDelete m trackId)
    else (true, m)

/-- `rememberAdd(trackId)` (lines 55-59): prune, then set to now. -/
def rememberAdd (m : List (String × Nat)) (trackId : String) (now : Nat) :
    List (String × Nat) :=
  mapSet (pruneRecentAdds m now) trackId now

/-! ### server.js lines 295-343: the playlist-membership cache -/

/-- `dedupeScopeKey(windowSize)` (lines 322-324); `none` models the
"scan the entire playlist" configuration. -/
def dedupeScopeKey (windowSize : Option Nat) : String :=
  match windowSize with
  | none => "all"
  | some w => "last:" ++ toString w

/-- The `playlistCache` singleton's shape (lines 303-309). -/
structure PlaylistCache where
  ids : List String
  snapshotId : String
  total : Nat
  scopeKey : String
  updatedAt : Nat
deriving DecidableEq

/-- The initial cache value (lines 303-309). -/
def initialPlaylistCache : PlaylistCache := ⟨[], "", 0, "", 0⟩

/-- `isPlaylistCacheUsable(windowSize)` (lines 326-333). -/
def isPlaylistCacheUsable (cache : PlaylistCache) (windowSize : Option Nat)
    (now ttl : Nat) : Bool :=
  decide (0 < cache.updatedAt) &&
    (cache.scopeKey == dedupeScopeKey windowSize) &&
    decide (now - cache.updatedAt < ttl)

/-- JS `Set.add`: insert if not already present. -/
def setAdd (ids : List String) (id : String) : List String :=
  if ids.contains id then ids else ids ++ [id]

/-- `markPlaylistCacheWithAddedTrack(trackId, windowSize)` (lines
335-343): in-place optimistic update after a successful add; the total
is incremented only when the id was new. -/
def markPlaylistCacheWithAddedTrack (trackId : String)
    (windowSize : Option Nat) (cache : PlaylistCache) (now : Nat) :
    PlaylistCache :=
  if trackId = "" then cache
  else if cache.scopeKey != dedupeScopeKey windowSize ||
      cache.updatedAt == 0 then cache
  else
    { cache with
      ids := setAdd cache.ids trackId,
      total := if cache.ids.contains trackId then cache.total
               else cache.total + 1,
      updatedAt := now }

/-- The `snapshot_id` / `tracks.total` pair returned by
`fetchPlaylistMeta` (lines 345-352). -/
structure PlaylistMeta where
  snapshotId : String
  total : Nat
deriving DecidableEq

/-! ### server.js lines 354-374: `scanPlaylistTrackIds`

The page loop is modelled with an explicit iteration allowance (fuel).
Every iteration with a non-empty page advances `offset` by at least
one, so `endTotal - offset` iterations always suffice; the fuel-zero
case is reachable only when `offset ≥ endTotal`, where it returns the
same value as the loop's exit branch.  `fetchPage offset limit` is the
upstream page oracle: the `items` array with each item's `track.id`
(`none` models a null id). -/

/-- One run of the `while (offset < end)` loop (lines 360-371),
accumulating the id set and the `(offset, limit)` of every page request
issued. -/
def scanPagesFuel (fetchPage : Nat → Nat → List (Option String))
    (endTotal : Nat) : Nat → Nat → List String →
    List String × List (Nat × Nat)
  | 0, _, acc => (acc, [])
  | fuel + 1, offset, acc =>
    if offset < endTotal then
      let limit := min 100 (endTotal - offset)
      let items := fetchPage offset limit
      let acc2 := items.foldl (fun ids it =>
        match it with
        | some i => setAdd ids i
        | none => ids) acc
      if items.length = 0 then (acc2, [(offset, limit)])
      else
        let rest :=
          scanPagesFuel fetchPage endTotal fuel (offset + items.length) acc2
        (rest.1, (offset, limit) :: rest.2)
    else (acc, [])

/-- The start offset of a scoped scan (line 358):
`windowSize == null ? 0 : Math.max(0, end - windowSize)` (the clamp at
zero is `Nat` subtraction). -/
def scanStart (windowSize : Option Nat) (total : Nat) : Nat :=
  match windowSize with
  | none => 0
  | some w => total - w

/-- `scanPlaylistTrackIds(windowSize, total)` (lines 354-374); `total`
is already non-negative (`Math.max(0, total)` is the identity on
`Nat`). -/
def scanPlaylistTrackIds (windowSize : Option Nat) (total : Nat)
    (fetchPage : Nat → Nat → List (Option String)) :
    List String × List (Nat × Nat) :=
  scanPagesFuel fetchPage total (total - scanStart windowSize total)
    (scanStart windowSize total) []

/-- `refreshPlaylistCache(windowSize, meta)` (lines 376-396), as the
cache value it installs.  The in-flight-promise coalescing is a
concurrency mechanism and is not modelled. -/
def refreshPlaylistCache (windowSize : Option Nat) (meta : PlaylistMeta)
    (fetchPage : Nat → Nat → List (Option String)) (now : Nat) :
    PlaylistCache :=
  { ids := (scanPlaylistTrackIds windowSize meta.total fetchPage).1,
    snapshotId := meta.snapshotId,
    total := meta.total,
    scopeKey := dedupeScopeKey windowSize,
    updatedAt := now }

/-- `playlistHasTrackCached(trackId, windowSize)` (lines 424-444).
`meta` is the value `fetchPlaylistMeta` observes during this call.
Returns the membership answer, the cache state afterwards, and the
page requests issued by any rescan (empty when no rescan occurred). -/
def playlistHasTrackCached (trackId : String) (windowSize : Option Nat)
    (cache : PlaylistCache) (meta : PlaylistMeta)
    (fetchPage : Nat → Nat → List (Option String)) (now ttl : Nat) :
    Bool × PlaylistCache × List (Nat × Nat) :=
  if !isPlaylistCacheUsable cache windowSize now ttl then
    let fresh := refreshPlaylistCache windowSize meta fetchPage now
    (fresh.ids.contains trackId, fresh,
      (scanPlaylistTrackIds windowSize meta.total fetchPage).2)
  else
    let snapshotChanged :=
      (meta.snapshotId != "") && (cache.snapshotId != "") &&
        (meta.snapshotId != cache.snapshotId)
    if snapshotChanged || (meta.total != cache.total) then
      let fresh := refreshPlaylistCache windowSize meta fetchPage now
      (fresh.ids.contains trackId, fresh,
        (scanPlaylistTrackIds windowSize meta.total fetchPage).2)
    else
      (cache.ids.contains trackId, { cache with updatedAt := now }, [])

/-! ### server.js lines 590-630: the de-dupe and add phase of
`/add-current-smart`

The flow for an already-resolved picked track id: recent fast-path,
then the cached playlist check, then the upstream add (logged),
`rememberAdd`, and the optimistic cache mark.  The non-awaited
background `refreshPlaylistCache` on line 621 completes after the
response and is modelled by letting the next call start from an
arbitrary cache state; the direct-scan fallback of `playlistHasTrack`
is taken only when the cached path throws, which a pure model does not
represent. -/

/-- Mutable server state touched by the flow: the recent-adds map, the
playlist cache, and the log of upstream add calls performed. -/
structure SmartState where
  recent : List (String × Nat)
  cache : PlaylistCache
  addLog : List String
deriving DecidableEq

/-- The `added`/`reason` fields of the JSON response. -/
structure SmartResponse where
  added : Bool
  reason : Option String
deriving DecidableEq

/-- Lines 590-630 for a resolved track id `picked`. -/
def smartAddDedupe (picked : String) (st : SmartState)
    (windowSize : Option Nat) (meta : PlaylistMeta)
    (fetchPage : Nat → Nat → List (Option String)) (now ttl : Nat) :
    SmartResponse × SmartState :=
  let seen := seenRecently st.recent picked now
  if seen.1 then
    (⟨false, some "already in playlist (recent)"⟩,
      { st with recent := seen.2 })
  else
    let checkRes :=
      playlistHasTrackCached picked windowSize st.cache meta fetchPage now ttl
    if checkRes.1 then
      (⟨false, some "already in playlist"⟩,
        { st with recent := seen.2, cache := checkRes.2.1 })
    else
      (⟨true, none⟩,
        { recent := rememberAdd seen.2 picked now,
          cache := markPlaylistCacheWithAddedTrack picked windowSize
            checkRes.2.1 now,
          addLog := st.addLog ++ [picked] })

/-! ### server.js lines 646-682 and 738-778: grouping and volumes -/

/-- Whether an `Except` result is a success. -/
def exceptOk {ε α : Type} : Except ε α → Bool
  | .ok _ => true
  | .error _ => false

/-- The clamp of `setRoomVolume` (line 662):
`Math.max(0, Math.min(100, v))`. -/
def clampVolume (x : Int) : Nat := (max 0 (min 100 x)).toNat

/-- `setRoomVolume(room, vol)` (lines 661-671).  `vol = none` models
`Number(...)` having produced `NaN` (non-numeric input), which throws
before any gateway call; otherwise the clamped value is sent to the
gateway oracle.  Returns the volume actually sent on success. -/
def setRoomVolume (room : String) (vol : Option Int)
    (gateway : String → Nat → Except String Unit) : Except String Nat :=
  match vol with
  | none => .error ("invalid volume for " ++ room ++ ": NaN")
  | some x =>
    match gateway room (clampVolume x) with
    | .ok _ => .ok (clampVolume x)
    | .error e => .error e

/-- The gateway call issued for one volume entry: none for a NaN
volume (the throw happens before the fetch), else the clamped value. -/
def volumeCall (room : String) (vol : Option Int) : Option (String × Nat) :=
  vol.map fun x => (room, clampVolume x)

/-- The volume phase of `/group` (lines 755-764): `Promise.allSettled`
over one `setRoomVolume` per entry, with per-room outcomes recorded in
request order — `volumes_set` (with the caller's requested value),
`volumes_failed` (with the error message), plus the gateway calls
issued. -/
def runVolumes (entries : List (String × Option Int))
    (gateway : String → Nat → Except String Unit) :
    List (String × Int) × List (String × String) × List (String × Nat) :=
  (entries.filterMap fun e =>
    match e.2, setRoomVolume e.1 e.2 gateway with
    | some x, .ok _ => some (e.1, x)
    | _, _ => none,
   entries.filterMap fun e =>
    match setRoomVolume e.1 e.2 gateway with
    | .error err => some (e.1, err)
    | .ok _ => none,
   entries.filterMap fun e => volumeCall e.1 e.2)

/-- The sequential join loop of `/group` (lines 741-753): each room is
joined in order; a failure is recorded per-room and the loop
continues.  (The 200ms settle delay affects timing only.) -/
def runJoins (joinGateway : String → Except String Unit)
    (toJoin : List String) : List String × List (String × String) :=
  toJoin.foldl (fun acc room =>
    match joinGateway room with
    | .ok _ => (acc.1 ++ [room], acc.2)
    | .error e => (acc.1, acc.2 ++ [(room, e)])) ([], [])

/-- The `/group` response envelope (lines 766-778). -/
structure GroupResponse where
  ok : Bool
  coordinator : String
  joined : List String
  skipped : List String
  failed : List (String × String)
  volumes_set : List (String × Int)
  volumes_failed : List (String × String)
deriving DecidableEq

/-- Lines 738-778 of the `/group` handler, once rooms, coordinator and
existing membership are resolved: filter to the rooms to join, run the
join loop, run the volume phase, and answer `ok:true`. -/
def groupJoinAndVolumes (rooms : List String) (coordinatorName : String)
    (existing : List String) (joinGateway : String → Except String Unit)
    (volumes : List (String × Option Int))
    (volumeGateway : String → Nat → Except String Unit) : GroupResponse :=
  let toJoin := rooms.filter fun r =>
    (r != "") && (r != coordinatorName) && !existing.contains r
  let joins := runJoins joinGateway toJoin
  let vols := runVolumes volumes volumeGateway
  { ok := true,
    coordinator := coordinatorName,
    joined := joins.1,
    skipped := rooms.filter fun r => existing.contains r || r == coordinatorName,
    failed := joins.2,
    volumes_set := vols.1,
    volumes_failed := vols.2.1 }

/-! ### Concrete oracles and states used as test inputs -/

/-- A page oracle that always returns an empty page. -/
def emptyPage : Nat → Nat → List (Option String) := fun _ _ => []

/-- A page oracle returning a single-track page. -/
def onePage : Nat → Nat → List (Option String) := fun _ _ => [some "t2"]

/-- A usable cache snapshot (scope "all", fresh at time 5). -/
def cacheExample : PlaylistCache := ⟨["t1"], "snapA", 1, "all", 5⟩

/-- Remote metadata whose snapshot marker changed. -/
def metaChangedExample : PlaylistMeta := ⟨"snapB", 1⟩

/-- An always-successful volume gateway. -/
def okGateway : String → Nat → Except String Unit := fun _ _ => .ok ()

/-- A fresh server state: empty recent-adds map, pristine cache, no
upstream adds performed. -/
def smartStateExample : SmartState := ⟨[], initialPlaylistCache, []⟩

/-- Remote metadata for an empty playlist. -/
def metaExample : PlaylistMeta := ⟨"snap", 0⟩

/-! ### Concrete zone snapshots used as test inputs -/

/-- A home-theater (TV input) current track. -/
def tvStreamTrack : TrackInfo :=
  ⟨"x-sonos-htastream:RINCON_12345:spdif", "", "", none⟩

/-- A zone whose only member plays a TV input. -/
def tvZone : Zone :=
  ⟨[⟨"Den", true, some ⟨"PLAYING", some tvStreamTrack⟩⟩]⟩

/-- A Spotify current track as reported through Sonos. -/
def spotifySonosTrack : TrackInfo :=
  ⟨"x-sonos-spotify:spotify%3atrack%3aAbc123?sid=9", "Song", "Artist",
    some 180⟩

/-- A zone whose only member is in the TRANSITIONING state. -/
def transitioningZone : Zone :=
  ⟨[⟨"Kitchen", true, some ⟨"TRANSITIONING", some spotifySonosTrack⟩⟩]⟩

/-- A zone whose only member is PLAYING a Spotify track. -/
def playingZone : Zone :=
  ⟨[⟨"Living Room", true, some ⟨"PLAYING", some spotifySonosTrack⟩⟩]⟩

/-- An active zone named Kitchen with a native Spotify track. -/
def kitchenZone : Zone :=
  ⟨[⟨"Kitchen", true, some ⟨"PLAYING",
    some ⟨"spotify:track:AAA1", "A", "B", some 100⟩⟩⟩]⟩

/-- An active zone named Bedroom with a generic music-like track. -/
def bedroomZone : Zone :=
  ⟨[⟨"Bedroom", true, some ⟨"PLAYING",
    some ⟨"x-sonos-http:stream42", "C", "D", some 100⟩⟩⟩]⟩

/-- An active zone playing a music-like web stream whose URI carries no
Spotify track id. -/
def webRadioZone : Zone :=
  ⟨[⟨"Office", true, some ⟨"PLAYING",
    some ⟨"x-sonos-http:radio.mp3", "Morning Show", "Host", some 3600⟩⟩⟩]⟩

/-! ### Order facts about `lexLe` -/

theorem lexLe_total : ∀ a b : List Nat, lexLe a b = true ∨ lexLe b a = true
  | [], _ => Or.inl rfl
  | _ :: _, [] => Or.inr rfl
  | a :: as, b :: bs => by
    simp only [lexLe]
    rcases Nat.lt_trichotomy a b with h | h | h
    · left
      simp [h]
    · subst h
      simpa [Nat.lt_irrefl] using lexLe_total as bs
    · right
      simp [h]

theorem lexLe_trans : ∀ a b c : List Nat,
    lexLe a b = true → lexLe b c = true → lexLe a c = true
  | [], _, _, _, _ => rfl
  | _ :: _, [], _, h, _ => by simp [lexLe] at h
  | _ :: _, _ :: _, [], _, h => by simp [lexLe] at h
  | a :: as, b :: bs, c :: cs, hab, hbc => by
    simp only [lexLe] at hab hbc ⊢
    by_cases h1 : a < b
    · by_cases h2 : b < c
      · simp [Nat.lt_trans h1 h2]
      · by_cases h3 : c < b
        · simp [h2, h3] at hbc
        · have hbceq : b = c :=
            Nat.le_antisymm (Nat.le_of_not_lt h3) (Nat.le_of_not_lt h2)
          subst hbceq
          simp [h1]
    · by_cases h4 : b < a
      · simp [h1, h4] at hab
      · have habeq : a = b :=
          Nat.le_antisymm (Nat.le_of_not_lt h4) (Nat.le_of_not_lt h1)
        subst habeq
        simp only [Nat.lt_irrefl, if_false] at hab
        by_cases h2 : a < c
        · simp [h2]
        · by_cases h3 : c < a
          · simp [h2, h3] at hbc
          · have haceq : a = c :=
              Nat.le_antisymm (Nat.le_of_not_lt h3) (Nat.le_of_not_lt h2)
            subst haceq
            simp only [Nat.lt_irrefl, if_false] at hbc ⊢
            exact lexLe_trans as bs cs hab hbc

theorem lexLe_antisymm : ∀ a b : List Nat,
    lexLe a b = true → lexLe b a = true → a = b
  | [], [], _, _ => rfl
  | [], _ :: _, _, h => by simp [lexLe] at h
  | _ :: _, [], h, _ => by simp [lexLe] at h
  | a :: as, b :: bs, hab, hba => by
    simp only [lexLe] at hab hba
    by_cases h1 : a < b
    · simp [Nat.lt_asymm h1, h1] at hba
    · by_cases h2 : b < a
      · simp [h1, h2] at hab
      · have habeq : a = b :=
          Nat.le_antisymm (Nat.le_of_not_lt h2) (Nat.le_of_not_lt h1)
        subst habeq
        simp only [Nat.lt_irrefl, if_false] at hab hba
        rw [lexLe_antisymm as bs hab hba]

/-! ### Helper lemmas about the zone-selection pipeline -/

/-- A TV-like URI is never classified as music-like. -/
theorem isMusicLikeTrack_eq_false_of_tv (track : TrackInfo)
    (h : isTvLikeUri track.uri = true) : isMusicLikeTrack track = false := by
  have huri : track.uri ≠ "" := by
    intro he
    rw [he] at h
    exact absurd h (by decide)
  simp [isMusicLikeTrack, huri, h]

theorem mem_of_head?_eq_some {α : Type} {l : List α} {a : α}
    (h : l.head? = some a) : a ∈ l := by
  cases l with
  | nil => cases h
  | cons x xs =>
    simp only [List.head?_cons, Option.some.injEq] at h
    subst h
    simp

theorem orElse_eq_some_elim {α : Type} {o : Option α} {f : Unit → Option α}
    {z : α} (h : o.orElse f = some z) : o = some z ∨ f () = some z := by
  cases o with
  | none => right; simpa [Option.orElse] using h
  | some x => left; simpa [Option.orElse] using h

theorem filterByMode_mem {mode : String} {zs : List Zone} {x : Zone}
    (h : x ∈ filterByMode mode zs) : x ∈ zs := by
  by_cases hm : mode = "any"
  · simpa [filterByMode, hm] using h
  · rw [filterByMode, if_neg hm] at h
    exact List.mem_of_mem_filter h

/-- Whatever `pickActiveZone` returns is a member of the sorted active
list. -/
theorem pickActiveZone_mem_active {zones : List Zone} {p mode : String}
    {z : Zone} (h : pickActiveZone zones p mode = some z) :
    z ∈ sortZonesDeterministically (zones.filter isActive) := by
  simp only [pickActiveZone] at h
  set active := sortZonesDeterministically (zones.filter isActive) with hact
  by_cases hne : active.isEmpty
  · rw [if_pos hne] at h
    cases h
  · rw [if_neg hne] at h
    rcases orElse_eq_some_elim h with h1 | h1
    · by_cases hp : p ≠ ""
      · rw [if_pos hp] at h1
        exact List.mem_of_mem_filter
          (filterByMode_mem (mem_of_head?_eq_some h1))
      · rw [if_neg hp] at h1
        cases h1
    · rcases orElse_eq_some_elim h1 with h2 | h2
      · exact filterByMode_mem
          (List.mem_of_mem_filter (mem_of_head?_eq_some h2))
      · rcases orElse_eq_some_elim h2 with h3 | h3
        · exact filterByMode_mem (mem_of_head?_eq_some h3)
        · exact mem_of_head?_eq_some h3

/-- When the active filter leaves exactly one zone, `pickActiveZone`
returns it for every preferred room and mode (tier 4 guarantees a
fallback). -/
theorem pickActiveZone_of_filter_singleton {zones : List Zone} {z : Zone}
    (h : zones.filter isActive = [z]) (p mode : String) :
    pickActiveZone zones p mode = some z := by
  have hsort : sortZonesDeterministically (zones.filter isActive) = [z] := by
    rw [h]
    rfl
  simp only [pickActiveZone, hsort]
  have headAlt : ∀ (L : List Zone), (∀ x ∈ L, x = z) →
      L.head? = none ∨ L.head? = some z := by
    intro L hL
    cases L with
    | nil => left; rfl
    | cons a t =>
      right
      rw [List.head?_cons, hL a (by simp)]
  have hsingle : ∀ (x : Zone), x ∈ ([z] : List Zone) → x = z := by
    intro x hx
    simpa using hx
  have hpref : (if p ≠ "" then
      (filterByMode mode (([z] : List Zone).filter fun zz =>
        zz.members.any fun m => m.roomName == p)).head?
      else none) = none ∨ (if p ≠ "" then
      (filterByMode mode (([z] : List Zone).filter fun zz =>
        zz.members.any fun m => m.roomName == p)).head?
      else none) = some z := by
    by_cases hp : p ≠ ""
    · rw [if_pos hp]
      exact headAlt _ fun x hx =>
        hsingle x (List.mem_of_mem_filter (filterByMode_mem hx))
    · left
      rw [if_neg hp]
  have hspot := headAlt ((filterByMode mode [z]).filter zoneHasSpotifyTrack)
    fun x hx => hsingle x (filterByMode_mem (List.mem_of_mem_filter hx))
  have hmusic := headAlt (filterByMode mode [z])
    fun x hx => hsingle x (filterByMode_mem hx)
  rcases hpref with h1 | h1 <;> rw [h1] <;>
    [skip; simp [Option.orElse]]
  rcases hspot with h2 | h2 <;> rw [h2] <;>
    [skip; simp [Option.orElse]]
  rcases hmusic with h3 | h3 <;> rw [h3] <;> simp [Option.orElse]

/-- The sorted active order only depends on the multiset of zones when
all sort keys are distinct. -/
theorem sortZones_eq_of_perm {l₁ l₂ : List Zone} (hp : l₁.Perm l₂)
    (hnd : (l₁.map zoneSortKey).Nodup) :
    sortZonesDeterministically l₁ = sortZonesDeterministically l₂ := by
  haveI : IsTotal Zone zoneLe := ⟨fun a b => lexLe_total _ _⟩
  haveI : IsTrans Zone zoneLe := ⟨fun _ _ _ hab hbc => lexLe_trans _ _ _ hab hbc⟩
  have hps₁ : (List.insertionSort zoneLe l₁).Perm l₁ :=
    List.perm_insertionSort zoneLe l₁
  have hps₂ : (List.insertionSort zoneLe l₂).Perm l₂ :=
    List.perm_insertionSort zoneLe l₂
  have hperm : (List.insertionSort zoneLe l₁).Perm (List.insertionSort zoneLe l₂) :=
    hps₁.trans (hp.trans hps₂.symm)
  have hnd₁ : ((List.insertionSort zoneLe l₁).map zoneSortKey).Nodup :=
    (hps₁.symm.map zoneSortKey).nodup hnd
  have hnd₂ : ((List.insertionSort zoneLe l₂).map zoneSortKey).Nodup :=
    ((hp.map zoneSortKey).trans (hps₂.symm.map zoneSortKey)).nodup hnd
  have hpair₁ :
      List.Pairwise (fun a b => zoneLe a b ∧ zoneSortKey a ≠ zoneSortKey b)
        (List.insertionSort zoneLe l₁) :=
    (List.sorted_insertionSort zoneLe l₁).and (List.pairwise_map.mp hnd₁)
  have hpair₂ :
      List.Pairwise (fun a b => zoneLe a b ∧ zoneSortKey a ≠ zoneSortKey b)
        (List.insertionSort zoneLe l₂) :=
    (List.sorted_insertionSort zoneLe l₂).and (List.pairwise_map.mp hnd₂)
  haveI : IsAntisymm Zone
      (fun a b => zoneLe a b ∧ zoneSortKey a ≠ zoneSortKey b) :=
    ⟨fun _ _ hab hba => absurd (lexLe_antisymm _ _ hab.1 hba.1) hab.2⟩
  exact List.eq_of_perm_of_sorted hperm hpair₁ hpair₂

/-! ### Claim theorems -/

/-- C1, counterexample: a snapshot whose only active zone plays a TV
input.  The claim says `pickActiveZone` returns `none` under
`mode="music"`; in fact the tier-4 fallback returns that TV zone. -/
theorem c1_counterexample :
    isActive tvZone = true ∧
    isTvLikeUri (currentTrackOf tvZone).uri = true ∧
    pickActiveZone [tvZone] "" "music" = some tvZone := by decide

/-- C1 (amended): when the only active zone's coordinator plays a
TV-input source, the zone is excluded by the music-mode filter
(`zoneHasMusic` is false, so tiers 1-3 skip it), yet `pickActiveZone`
still returns it under `mode="music"` through the tier-4 any-active-zone
fallback, and also returns it under `mode="any"`. -/
theorem c1_tv_zone_selected_both_modes {zones : List Zone} {z : Zone}
    (p : String) (hactive : zones.filter isActive = [z])
    (htv : isTvLikeUri (currentTrackOf z).uri = true) :
    zoneHasMusic z = false ∧
    pickActiveZone zones p "music" = some z ∧
    pickActiveZone zones p "any" = some z :=
  ⟨isMusicLikeTrack_eq_false_of_tv _ htv,
    pickActiveZone_of_filter_singleton hactive p "music",
    pickActiveZone_of_filter_singleton hactive p "any"⟩

/-- Witness for C1: the amended theorem applied to the concrete TV-only
snapshot. -/
theorem c1_witness :
    zoneHasMusic tvZone = false ∧
    pickActiveZone [tvZone] "" "music" = some tvZone ∧
    pickActiveZone [tvZone] "" "any" = some tvZone :=
  c1_tv_zone_selected_both_modes "" (by decide) (by decide)

/-- C2, counterexample: a zone whose only member is TRANSITIONING.  The
claim says the activity filter keeps zones with a member playing or
transitioning; the code's `isActive` accepts only `"PLAYING"`, so this
zone is dropped and nothing is selected. -/
theorem c2_counterexample :
    (transitioningZone.members.any fun m =>
      match m.state with
      | some st =>
        st.playbackState == "PLAYING" || st.playbackState == "TRANSITIONING"
      | none => false) = true ∧
    isActive transitioningZone = false ∧
    pickActiveZone [transitioningZone] "" "music" = none := by decide

/-- C2 (amended): the step-1 activity filter keeps exactly the zones
with at least one member whose playbackState is `"PLAYING"` (a
transitioning-only zone is not active), and every zone `pickActiveZone`
returns passed that filter. -/
theorem c2_active_filter_playing_only :
    (∀ zone : Zone, isActive zone = true ↔
      ∃ m ∈ zone.members, ∃ st, m.state = some st ∧
        st.playbackState = "PLAYING") ∧
    ∀ (zones : List Zone) (p mode : String) (z : Zone),
      pickActiveZone zones p mode = some z → isActive z = true := by
  constructor
  · intro zone
    rw [isActive, List.any_eq_true]
    constructor
    · rintro ⟨m, hm, hpred⟩
      rcases hst : m.state with _ | st
      · rw [hst] at hpred
        cases hpred
      · rw [hst] at hpred
        exact ⟨m, hm, st, hst, by simpa using hpred⟩
    · rintro ⟨m, hm, st, hst, hps⟩
      refine ⟨m, hm, ?_⟩
      rw [hst]
      simp [hps]
  · intro zones p mode z h
    have hmem := pickActiveZone_mem_active h
    have hmem2 : z ∈ zones.filter isActive :=
      ((List.perm_insertionSort zoneLe (zones.filter isActive)).mem_iff).mp hmem
    exact (List.mem_filter.mp hmem2).2

/-- Witness for C2: the selection half applied to a concrete playing
zone. -/
theorem c2_witness : isActive playingZone = true :=
  c2_active_filter_playing_only.2 [playingZone] "" "music" playingZone
    (by decide)

/-- C5 (confirmed): for a fixed snapshot (up to permutation of the
input array) with distinct zone sort keys among the active zones, and
fixed preferred room and mode, `pickActiveZone` returns the same
result on any permutation of the input. -/
theorem c5_pickActiveZone_perm_invariant (l₁ l₂ : List Zone)
    (p mode : String) (hp : l₁.Perm l₂)
    (hnd : ((l₁.filter isActive).map zoneSortKey).Nodup) :
    pickActiveZone l₁ p mode = pickActiveZone l₂ p mode := by
  have hs : sortZonesDeterministically (l₁.filter isActive) =
      sortZonesDeterministically (l₂.filter isActive) :=
    sortZones_eq_of_perm (hp.filter _) hnd
  simp only [pickActiveZone, hs]

/-- Witness for C5: the two-zone snapshot in both input orders. -/
theorem c5_witness :
    pickActiveZone [kitchenZone, bedroomZone] "" "music" =
      pickActiveZone [bedroomZone, kitchenZone] "" "music" :=
  c5_pickActiveZone_perm_invariant _ _ "" "music" (by decide) (by decide)

/-- The attempt loop surfaces the last attempt's error, after
performing every allowed attempt, whenever all attempts in range
fail. -/
theorem fetchAttempts_all_fail {α : Type} (responses : Nat → FetchOutcome α) :
    ∀ (n a : Nat), (∀ i, a ≤ i → i ≤ a + n → (responses i).isOk = false) →
    fetchAttempts responses a n =
      (.error (responses (a + n)).errMsg, a + n + 1) := by
  intro n
  induction n with
  | zero =>
    intro a h
    have ha := h a (Nat.le_refl a) (Nat.le_add_right a 0)
    simp only [fetchAttempts, Nat.add_zero]
    rcases hr : responses a with v | ⟨s, b⟩ | m
    · rw [hr] at ha
      cases ha
    · rfl
    · rfl
  | succ n ih =>
    intro a h
    have ha := h a (Nat.le_refl a) (Nat.le_add_right a (n + 1))
    have harith : a + 1 + n = a + (n + 1) := by omega
    simp only [fetchAttempts]
    rcases hr : responses a with v | ⟨s, b⟩ | m
    · rw [hr] at ha
      cases ha
    · rw [ih (a + 1) fun i h1 h2 => h i (by omega) (by omega), harith]
    · rw [ih (a + 1) fun i h1 h2 => h i (by omega) (by omega), harith]

/-- C3, counterexample: the first attempt returns HTTP 404 — a 4xx
other than 401 — yet `fetchJsonWithRetry` retries and returns the
second attempt's success instead of surfacing the 404 immediately. -/
theorem c3_counterexample :
    notFoundThenOk 0 = .httpErr 404 "not found" ∧
    fetchJsonWithRetry notFoundThenOk 3 = (.ok 7, 2) := ⟨rfl, rfl⟩

/-- C3 (amended): `fetchJsonWithRetry` treats every failed attempt
alike — 4xx rejections included — retrying with backoff until the
`retries` allowance is exhausted; only then is the final attempt's
error surfaced (after `retries + 1` fetch attempts in total). -/
theorem c3_all_failures_retried {α : Type}
    (responses : Nat → FetchOutcome α) (retries : Nat)
    (hfail : ∀ i, i ≤ retries → (responses i).isOk = false) :
    fetchJsonWithRetry responses retries =
      (.error (responses retries).errMsg, retries + 1) := by
  have h := fetchAttempts_all_fail responses retries 0
    fun i h1 h2 => hfail i (by omega)
  simpa [fetchJsonWithRetry] using h

/-- Witness for C3: a permanently-404 upstream is retried to exhaustion
and surfaced after four attempts. -/
theorem c3_witness :
    fetchJsonWithRetry alwaysNotFound 3 = (.error "404 nf", 4) :=
  c3_all_failures_retried alwaysNotFound 3 fun _ _ => rfl

/-- C4, counterexample: a resolved music-like current item whose URI
yields no native track id produces no identity at all — the flow
answers `added:false` with the not-a-Spotify-track reason instead of
building a synthetic composite title/artist/artwork key. -/
theorem c4_counterexample :
    extractSpotifyTrackId (currentTrackOf webRadioZone).uri = none ∧
    resolveSonosTrack webRadioZone "music" =
      .notAddable "Current item is not a Spotify track (or no URI)" := by
  decide

/-- C4 (amended): whenever the picked zone's playback-source URI yields
no native track id, the Sonos branch of the add flow produces no track
identity: it returns one of the two `added:false` reasons and never a
resolved track. -/
theorem c4_no_native_id_no_identity (zone : Zone) (mode : String)
    (h : extractSpotifyTrackId (currentTrackOf zone).uri = none) :
    resolveSonosTrack zone mode =
      .notAddable "Active zone is TV/line-in; ignoring in music mode" ∨
    resolveSonosTrack zone mode =
      .notAddable "Current item is not a Spotify track (or no URI)" := by
  simp only [resolveSonosTrack]
  rcases hb : (mode != "any") && !isMusicLikeTrack (currentTrackOf zone)
  · right
    simp [h]
  · left
    simp

/-- Witness for C4: the amended theorem applied to the web-radio
zone. -/
theorem c4_witness :
    resolveSonosTrack webRadioZone "music" =
      .notAddable "Active zone is TV/line-in; ignoring in music mode" ∨
    resolveSonosTrack webRadioZone "music" =
      .notAddable "Current item is not a Spotify track (or no URI)" :=
  c4_no_native_id_no_identity webRadioZone "music" (by decide)

/-- Every page request of the scan loop stays inside the declared
bounds: at or after the starting offset, strictly below the declared
end, page size at most 100, and never reaching past the end. -/
theorem scanPagesFuel_bounds (fetchPage : Nat → Nat → List (Option String))
    (endTotal : Nat) :
    ∀ (fuel offset : Nat) (acc : List String) (p : Nat × Nat),
      p ∈ (scanPagesFuel fetchPage endTotal fuel offset acc).2 →
      offset ≤ p.1 ∧ p.1 < endTotal ∧ p.2 ≤ 100 ∧ p.1 + p.2 ≤ endTotal := by
  intro fuel
  induction fuel with
  | zero =>
    intro offset acc p hp
    simp [scanPagesFuel] at hp
  | succ n ih =>
    intro offset acc p hp
    simp only [scanPagesFuel] at hp
    by_cases h : offset < endTotal
    · rw [if_pos h] at hp
      have hmin1 : min 100 (endTotal - offset) ≤ 100 := Nat.min_le_left _ _
      have hmin2 : min 100 (endTotal - offset) ≤ endTotal - offset :=
        Nat.min_le_right _ _
      by_cases hlen :
          (fetchPage offset (min 100 (endTotal - offset))).length = 0
      · rw [if_pos hlen] at hp
        simp only [List.mem_singleton] at hp
        subst hp
        exact ⟨Nat.le_refl _, h, hmin1, by omega⟩
      · rw [if_neg hlen] at hp
        simp only [List.mem_cons] at hp
        rcases hp with rfl | hp
        · exact ⟨Nat.le_refl _, h, hmin1, by omega⟩
        · have hrec := ih
            (offset + (fetchPage offset (min 100 (endTotal - offset))).length)
            _ p hp
          exact ⟨by omega, hrec.2.1, hrec.2.2.1, hrec.2.2.2⟩
    · rw [if_neg h] at hp
      simp at hp

/-- C8 (confirmed): a scoped scan's first page request is at
`max(0, total - N)` (offset 0 for scope "all"); every page request uses
an offset strictly below the declared total, a page size of at most
100, and never reaches past the total. -/
theorem c8_scoped_scan_bounds (total : Nat) (windowSize : Option Nat)
    (fetchPage : Nat → Nat → List (Option String)) :
    ((scanPlaylistTrackIds windowSize total fetchPage).2.head? =
      if scanStart windowSize total < total then
        some (scanStart windowSize total,
          min 100 (total - scanStart windowSize total))
      else none) ∧
    ∀ p ∈ (scanPlaylistTrackIds windowSize total fetchPage).2,
      scanStart windowSize total ≤ p.1 ∧ p.1 < total ∧ p.2 ≤ 100 ∧
        p.1 + p.2 ≤ total := by
  constructor
  · rw [scanPlaylistTrackIds]
    by_cases h : scanStart windowSize total < total
    · rw [if_pos h]
      obtain ⟨k, hk⟩ : ∃ k, total - scanStart windowSize total = k + 1 :=
        ⟨total - scanStart windowSize total - 1, by omega⟩
      rw [hk]
      simp only [scanPagesFuel]
      rw [if_pos h]
      by_cases hlen : (fetchPage (scanStart windowSize total)
          (min 100 (total - scanStart windowSize total))).length = 0
      · rw [if_pos hlen, hk]
        rfl
      · rw [if_neg hlen, hk]
        rfl
    · rw [if_neg h]
      have h0 : total - scanStart windowSize total = 0 := by omega
      rw [h0]
      rfl
  · intro p hp
    exact scanPagesFuel_bounds fetchPage total _ _ _ p hp

/-- Witness for C8: `total=500`, window 250 — the scan's first (and
with an empty upstream, only) request is `(250, 100)`, within
bounds. -/
theorem c8_witness :
    scanStart (some 250) 500 ≤ 250 ∧ 250 < 500 ∧ (100 : Nat) ≤ 100 ∧
      250 + 100 ≤ 500 :=
  (c8_scoped_scan_bounds 500 (some 250) emptyPage).2 (250, 100) (by decide)

/-- C7 (confirmed): a revalidation of a usable cache that observes a
(nonempty) remote snapshot marker differing from the (nonempty) cached
one, or a differing total, installs the freshly-rescanned cache — even
though the TTL has not elapsed — while an unchanged marker and total
leave the cached id set as is, issue no page requests, and only bump
the freshness timestamp. -/
theorem c7_revalidation (trackId : String) (windowSize : Option Nat)
    (cache : PlaylistCache) (meta : PlaylistMeta)
    (fetchPage : Nat → Nat → List (Option String)) (now ttl : Nat)
    (husable : isPlaylistCacheUsable cache windowSize now ttl = true)
    (hm : meta.snapshotId ≠ "") (hc : cache.snapshotId ≠ "") :
    ((meta.snapshotId ≠ cache.snapshotId ∨ meta.total ≠ cache.total) →
      playlistHasTrackCached trackId windowSize cache meta fetchPage now ttl =
        ((refreshPlaylistCache windowSize meta fetchPage now).ids.contains
            trackId,
          refreshPlaylistCache windowSize meta fetchPage now,
          (scanPlaylistTrackIds windowSize meta.total fetchPage).2)) ∧
    (meta.snapshotId = cache.snapshotId ∧ meta.total = cache.total →
      playlistHasTrackCached trackId windowSize cache meta fetchPage now ttl =
        (cache.ids.contains trackId, { cache with updatedAt := now }, [])) := by
  constructor
  · intro hne
    have hcond : (((meta.snapshotId != "") && (cache.snapshotId != "") &&
        (meta.snapshotId != cache.snapshotId)) ||
        (meta.total != cache.total)) = true := by
      rcases hne with hne | hne
      · have h1 : (meta.snapshotId != "") = true := bne_iff_ne.2 hm
        have h2 : (cache.snapshotId != "") = true := bne_iff_ne.2 hc
        have h3 : (meta.snapshotId != cache.snapshotId) = true :=
          bne_iff_ne.2 hne
        rw [h1, h2, h3]
        rfl
      · have h4 : (meta.total != cache.total) = true := bne_iff_ne.2 hne
        rw [h4, Bool.or_true]
    simp only [playlistHasTrackCached, husable, Bool.not_true,
      Bool.false_eq_true, if_false, hcond, if_true]
  · rintro ⟨h1, h2⟩
    have h3 : (meta.snapshotId != cache.snapshotId) = false := by
      rw [h1, bne_self_eq_false]
    have h4 : (meta.total != cache.total) = false := by
      rw [h2, bne_self_eq_false]
    simp only [playlistHasTrackCached, husable, Bool.not_true,
      Bool.false_eq_true, if_false, h3, h4, Bool.and_false, Bool.or_false,
      if_true]

/-- Witness for C7: the changed snapshot marker forces the rescan on a
fresh, unexpired cache. -/
theorem c7_witness :
    playlistHasTrackCached "t2" none cacheExample metaChangedExample onePage
        6 1000 =
      ((refreshPlaylistCache none metaChangedExample onePage 6).ids.contains
          "t2",
        refreshPlaylistCache none metaChangedExample onePage 6,
        (scanPlaylistTrackIds none metaChangedExample.total onePage).2) :=
  (c7_revalidation "t2" none cacheExample metaChangedExample onePage 6 1000
    (by decide) (by decide) (by decide)).1 (Or.inl (by decide))

/-- In-place update of an existing key stores the new value. -/
theorem mapGet_map_update : ∀ (m : List (String × Nat)) (k : String) (v : Nat),
    (m.any fun p => p.1 == k) = true →
    mapGet (m.map fun p => if p.1 == k then (k, v) else p) k = some v
  | [], _, _, h => by cases h
  | p :: rest, k, v, h => by
    rcases hb : p.1 == k
    · have hrest : (rest.any fun q => q.1 == k) = true := by
        rcases List.any_eq_true.mp h with ⟨q, hq, hq2⟩
        rcases List.mem_cons.mp hq with heq | hq3
        · subst heq
          rw [hb] at hq2
          cases hq2
        · exact List.any_eq_true.mpr ⟨q, hq3, hq2⟩
      have hhead : (if p.1 == k then (k, v) else p) = p := by simp [hb]
      rw [List.map_cons, hhead, mapGet,
        List.find?_cons_of_neg _ (by simp [hb])]
      exact mapGet_map_update rest k v hrest
    · have hhead : (if p.1 == k then (k, v) else p) = (k, v) := by simp [hb]
      rw [List.map_cons, hhead, mapGet,
        List.find?_cons_of_pos _ (by simp)]
      rfl

/-- Appending a fresh key makes it retrievable. -/
theorem mapGet_append_fresh : ∀ (m : List (String × Nat)) (k : String) (v : Nat),
    (m.any fun p => p.1 == k) = false →
    mapGet (m ++ [(k, v)]) k = some v
  | [], k, v, _ => by
    rw [List.nil_append, mapGet, List.find?_cons_of_pos _ (by simp)]
    rfl
  | p :: rest, k, v, h => by
    have hb : (p.1 == k) = false := by
      rcases hbc : p.1 == k
      · rfl
      · exfalso
        have hcontra : ((p :: rest).any fun q => q.1 == k) = true :=
          List.any_eq_true.mpr ⟨p, List.mem_cons_self p rest, hbc⟩
        rw [h] at hcontra
        cases hcontra
    have hrest : (rest.any fun q => q.1 == k) = false := by
      rcases hrc : rest.any fun q => q.1 == k
      · rfl
      · exfalso
        rcases List.any_eq_true.mp hrc with ⟨q, hq, hq2⟩
        have hcontra : ((p :: rest).any fun q => q.1 == k) = true :=
          List.any_eq_true.mpr ⟨q, List.mem_cons_of_mem p hq, hq2⟩
        rw [h] at hcontra
        cases hcontra
    rw [List.cons_append, mapGet, List.find?_cons_of_neg _ (by simp [hb])]
    exact mapGet_append_fresh rest k v hrest

/-- `Map.set` then `Map.get` of the same key yields the stored value. -/
theorem mapGet_mapSet_self (m : List (String × Nat)) (k : String) (v : Nat) :
    mapGet (mapSet m k v) k = some v := by
  rw [mapSet]
  rcases h : m.any fun p => p.1 == k
  · rw [if_neg (by simp)]
    exact mapGet_append_fresh m k v h
  · rw [if_pos rfl]
    exact mapGet_map_update m k v h

/-- A just-remembered track reads as recently seen at any time within
the TTL window (for a nonzero timestamp). -/
theorem seenRecently_after_remember (m : List (String × Nat))
    (trackId : String) (t0 t1 : Nat) (ht0 : 0 < t0)
    (httl : t1 - t0 < RECENT_TTL_MS) :
    seenRecently (rememberAdd m trackId t0) trackId t1 =
      (true, rememberAdd m trackId t0) := by
  have hget : mapGet (rememberAdd m trackId t0) trackId = some t0 :=
    mapGet_mapSet_self _ _ _
  rw [seenRecently, hget]
  dsimp only
  rw [if_neg (by omega), if_neg (Nat.not_le.mpr httl)]

/-- C6 (confirmed): with the picked track absent from the recent-adds
map and from the playlist, the first invocation adds it upstream
exactly once and the second invocation — within the TTL, from whatever
cache state the background refresh left behind — answers
`added:false, "already in playlist (recent)"` without another upstream
add. -/
theorem c6_second_add_is_deduped (picked : String) (st0 : SmartState)
    (windowSize : Option Nat) (meta meta2 : PlaylistMeta)
    (fetchPage fetchPage2 : Nat → Nat → List (Option String))
    (t0 t1 ttl : Nat) (laterCache : PlaylistCache)
    (hnew : mapGet st0.recent picked = none)
    (hnot : (playlistHasTrackCached picked windowSize st0.cache meta
      fetchPage t0 ttl).1 = false)
    (ht0 : 0 < t0) (httl : t1 - t0 < RECENT_TTL_MS) :
    (smartAddDedupe picked st0 windowSize meta fetchPage t0 ttl).1 =
      ⟨true, none⟩ ∧
    (smartAddDedupe picked st0 windowSize meta fetchPage t0 ttl).2.addLog =
      st0.addLog ++ [picked] ∧
    (smartAddDedupe picked
        { (smartAddDedupe picked st0 windowSize meta fetchPage t0 ttl).2 with
          cache := laterCache }
        windowSize meta2 fetchPage2 t1 ttl).1 =
      ⟨false, some "already in playlist (recent)"⟩ ∧
    (smartAddDedupe picked
        { (smartAddDedupe picked st0 windowSize meta fetchPage t0 ttl).2 with
          cache := laterCache }
        windowSize meta2 fetchPage2 t1 ttl).2.addLog =
      st0.addLog ++ [picked] := by
  have hseen0 : seenRecently st0.recent picked t0 = (false, st0.recent) := by
    rw [seenRecently, hnew]
  have hcall1 : smartAddDedupe picked st0 windowSize meta fetchPage t0 ttl =
      (⟨true, none⟩,
        { recent := rememberAdd st0.recent picked t0,
          cache := markPlaylistCacheWithAddedTrack picked windowSize
            (playlistHasTrackCached picked windowSize st0.cache meta
              fetchPage t0 ttl).2.1 t0,
          addLog := st0.addLog ++ [picked] }) := by
    rw [smartAddDedupe]
    simp only [hseen0, hnot, Bool.false_eq_true, if_false]
  have hseen1 : seenRecently (rememberAdd st0.recent picked t0) picked t1 =
      (true, rememberAdd st0.recent picked t0) :=
    seenRecently_after_remember _ _ _ _ ht0 httl
  refine ⟨by rw [hcall1], by rw [hcall1], ?_, ?_⟩
  · rw [hcall1, smartAddDedupe]
    simp only [hseen1, if_true]
  · rw [hcall1, smartAddDedupe]
    simp only [hseen1, if_true]

/-- Witness for C6: a fresh server state, the same track presented
twice 1000ms apart. -/
theorem c6_witness :
    (smartAddDedupe "Abc123" smartStateExample none metaExample emptyPage
      1000 9999999).1 = ⟨true, none⟩ ∧
    (smartAddDedupe "Abc123" smartStateExample none metaExample emptyPage
      1000 9999999).2.addLog = smartStateExample.addLog ++ ["Abc123"] ∧
    (smartAddDedupe "Abc123"
        { (smartAddDedupe "Abc123" smartStateExample none metaExample
            emptyPage 1000 9999999).2 with cache := initialPlaylistCache }
        none metaExample emptyPage 2000 9999999).1 =
      ⟨false, some "already in playlist (recent)"⟩ ∧
    (smartAddDedupe "Abc123"
        { (smartAddDedupe "Abc123" smartStateExample none metaExample
            emptyPage 1000 9999999).2 with cache := initialPlaylistCache }
        none metaExample emptyPage 2000 9999999).2.addLog =
      smartStateExample.addLog ++ ["Abc123"] :=
  c6_second_add_is_deduped "Abc123" smartStateExample none metaExample
    metaExample emptyPage emptyPage 1000 2000 9999999 initialPlaylistCache
    (by decide) (by decide) (by decide) (by decide)

/-- The sequential join fold partitions its input, in order, by each
room's own outcome. -/
theorem runJoins_foldl_spec (g : String → Except String Unit) :
    ∀ (l : List String) (acc : List String × List (String × String)),
      l.foldl (fun acc room =>
        match g room with
        | .ok _ => (acc.1 ++ [room], acc.2)
        | .error e => (acc.1, acc.2 ++ [(room, e)])) acc =
      (acc.1 ++ l.filter fun r => exceptOk (g r),
        acc.2 ++ l.filterMap fun r =>
          match g r with
          | .error e => some (r, e)
          | .ok _ => none)
  | [], acc => by simp
  | room :: rest, acc => by
    rw [List.foldl_cons]
    rcases hg : g room with e | u
    · simp only [hg]
      rw [runJoins_foldl_spec g rest (acc.1, acc.2 ++ [(room, e)])]
      simp [List.filter_cons, List.filterMap_cons, hg, exceptOk]
    · simp only [hg]
      rw [runJoins_foldl_spec g rest (acc.1 ++ [room], acc.2)]
      simp [List.filter_cons, List.filterMap_cons, hg, exceptOk]

/-- C9 (confirmed): the grouping flow attempts every to-join room in
order, records each success in `joined` and each failure with its
error in `failed`, never aborts the remaining joins on a failure, and
always reports `ok:true`. -/
theorem c9_group_partial_failure (rooms : List String)
    (coordinatorName : String) (existing : List String)
    (joinGateway : String → Except String Unit)
    (volumes : List (String × Option Int))
    (volumeGateway : String → Nat → Except String Unit) :
    (groupJoinAndVolumes rooms coordinatorName existing joinGateway volumes
      volumeGateway).ok = true ∧
    (groupJoinAndVolumes rooms coordinatorName existing joinGateway volumes
      volumeGateway).joined =
      (rooms.filter fun r =>
        (r != "") && (r != coordinatorName) && !existing.contains r).filter
        (fun r => exceptOk (joinGateway r)) ∧
    (groupJoinAndVolumes rooms coordinatorName existing joinGateway volumes
      volumeGateway).failed =
      (rooms.filter fun r =>
        (r != "") && (r != coordinatorName) && !existing.contains r).filterMap
        fun r =>
          match joinGateway r with
          | .error e => some (r, e)
          | .ok _ => none := by
  refine ⟨rfl, ?_, ?_⟩
  · simp only [groupJoinAndVolumes, runJoins, runJoins_foldl_spec joinGateway]
    simp
  · simp only [groupJoinAndVolumes, runJoins, runJoins_foldl_spec joinGateway]
    simp

/-- The clamp never exceeds 100. -/
theorem clampVolume_le (x : Int) : clampVolume x ≤ 100 := by
  rw [clampVolume]
  rcases le_total x 100 with h | h
  · rcases le_total x 0 with h2 | h2
    · rw [min_eq_right h, max_eq_left h2]
      decide
    · rw [min_eq_right h, max_eq_right h2]
      omega
  · rw [min_eq_left h]
    decide

/-- C10 (confirmed): volumes sent to the gateway are clamped into
0..100 (below 0 becomes 0, above 100 becomes 100, in-range values pass
through); a NaN (non-numeric) volume issues no gateway call and lands
that one room in `volumes_failed` while the other rooms' outcomes and
gateway calls are exactly those they would have had anyway. -/
theorem c10_volumes_clamped_and_isolated :
    (∀ x : Int, clampVolume x ≤ 100 ∧ (x < 0 → clampVolume x = 0) ∧
      (100 < x → clampVolume x = 100) ∧
      (0 ≤ x → x ≤ 100 → (clampVolume x : Int) = x)) ∧
    (∀ (room : String) (x : Int),
      volumeCall room (some x) = some (room, clampVolume x)) ∧
    (∀ (entries : List (String × Option Int))
      (gateway : String → Nat → Except String Unit) (c : String × Nat),
      c ∈ (runVolumes entries gateway).2.2 → c.2 ≤ 100) ∧
    (∀ (es₁ es₂ : List (String × Option Int)) (room : String)
      (gateway : String → Nat → Except String Unit),
      runVolumes (es₁ ++ (room, none) :: es₂) gateway =
        ((runVolumes es₁ gateway).1 ++ (runVolumes es₂ gateway).1,
          (runVolumes es₁ gateway).2.1 ++
            (room, "invalid volume for " ++ room ++ ": NaN") ::
              (runVolumes es₂ gateway).2.1,
          (runVolumes es₁ gateway).2.2 ++ (runVolumes es₂ gateway).2.2)) := by
  refine ⟨?_, ?_, ?_, ?_⟩
  · intro x
    refine ⟨clampVolume_le x, ?_, ?_, ?_⟩
    · intro hx
      rw [clampVolume, min_eq_right (by omega : x ≤ 100),
        max_eq_left (by omega : x ≤ 0)]
      rfl
    · intro hx
      rw [clampVolume, min_eq_left (by omega : (100 : Int) ≤ x)]
      rfl
    · intro hx0 hx100
      rw [clampVolume, min_eq_right hx100, max_eq_right hx0]
      exact Int.toNat_of_nonneg hx0
  · intro room x
    rfl
  · intro entries gateway c hc
    rcases List.mem_filterMap.mp hc with ⟨e, _, heq⟩
    rcases e with ⟨r, vol⟩
    rcases vol with _ | x
    · cases heq
    · have : c = (r, clampVolume x) := by
        simpa [volumeCall] using heq.symm
      rw [this]
      exact clampVolume_le x
  · intro es₁ es₂ room gateway
    rw [runVolumes, runVolumes, runVolumes]
    simp only [List.filterMap_append, List.filterMap_cons]
    dsimp only [setRoomVolume, volumeCall]
    simp

/-- Witness for C10: clamping at the boundaries and a gateway call
within range. -/
theorem c10_witness :
    clampVolume (-5) = 0 ∧ clampVolume 150 = 100 ∧
      (clampVolume 42 : Int) = 42 ∧ (("K", (100 : Nat)) : String × Nat).2 ≤ 100 :=
  ⟨(c10_volumes_clamped_and_isolated.1 (-5)).2.1 (by decide),
    (c10_volumes_clamped_and_isolated.1 150).2.2.1 (by decide),
    (c10_volumes_clamped_and_isolated.1 42).2.2.2 (by decide) (by decide),
    c10_volumes_clamped_and_isolated.2.2.1 [("K", some 150)] okGateway
      ("K", 100) (by decide)⟩

end Spainify
